import Mathlib

/-!
Verification of `go-bin-utils` (`src/package/main.js`, `src/package/worker.js`):
a shallow embedding of the build-matrix orchestrator (`buildBinary`), the
synchronous runner (`runPlatformBin`) with its timing-log parser, and the
worker-based single-flight runner (`runPlatformBinInWorker` / worker handler).

JavaScript strings are modelled as `List Char` (every character appearing in
this code base is a single UTF-16 code unit, so JS code-unit indices coincide
with character indices).  Filesystem and process effects are modelled by
oracle parameters and by returning the list of effects an invocation performs.
-/

namespace GoBinUtils

/-- Character class of the regexes `/[a-zA-Zµ]/` used by the timing parser in
`runPlatformBin` (main.js lines 164 and 166). -/
def isAlphaMu (c : Char) : Bool :=
  decide ('a' ≤ c ∧ c ≤ 'z') || decide ('A' ≤ c ∧ c ≤ 'Z') || c == 'µ'

/-- Worker for `jsSplit`: scans left to right, cutting at each leftmost
non-overlapping occurrence of the delimiter token `+~+~+`, accumulating the
current piece reversed (structural recursion so the kernel can evaluate it). -/
def splitDelimGo : List Char → List Char → List (List Char)
  | '+' :: '~' :: '+' :: '~' :: '+' :: rest, acc => acc.reverse :: splitDelimGo rest []
  | c :: cs, acc => splitDelimGo cs (c :: acc)
  | [], acc => [acc.reverse]

/-- Model of JS `se.split("+~+~+")` (main.js line 160): splits at each leftmost
non-overlapping occurrence of the private delimiter; `"".split(sep) = [""]`. -/
def jsSplit (s : List Char) : List (List Char) :=
  splitDelimGo s []

/-- Model of JS `s.indexOf(c)`: code-unit index of the first occurrence of `c`,
`-1` when absent. -/
def jsIndexOf (cs : List Char) (c : Char) : Int :=
  match cs.findIdx? (fun x => x == c) with
  | some i => (i : Int)
  | none => -1

/-- Model of JS `s.slice(start, stop)` for non-negative arguments: the
characters in `[start, stop)`, clamped to the string's length. -/
def jsSlice (cs : List Char) (start stop : Nat) : List Char :=
  (cs.take stop).drop start

/-- Unit detection of the timing parser (main.js lines 166-173):
`ts.match(/[a-zA-Zµ]/gi)` collects every alphabetic character of the timestamp
part; when there is none the unit defaults to `"ms"`, otherwise the matches

are joined. -/
def unitOfChars (ts : List Char) : List Char :=
  let u := ts.filter isAlphaMu
  if u = [] then ['m', 's'] else u

/-- Result of running the timing-log parser on one stderr payload: the
optional reassembled duration string and the list of `console.error` lines. -/
structure TimingResult where
  duration : Option String
  errLogs : List String
deriving DecidableEq, Repr

/-- The timing-log protocol parser embedded in `runPlatformBin`
(main.js lines 156-187): split the payload on `+~+~+`; with exactly two parts
and a non-empty first part, splice a duration string out of the leading
numeric run (`nums.slice(0, delim + 2) + nums.slice(delim + 6, ts.length)`)
followed by the unit; otherwise log the first part as an error.  A non-empty
second part is always logged as an error. -/
def parseTiming (se : String) : TimingResult :=
  let parts := jsSplit se.data
  let ts := parts.headD []
  let err := (parts.drop 1).headD []
  if ts ≠ [] ∧ parts.length = 2 then
    let delim := jsIndexOf ts '.'
    let nums := ts.takeWhile (fun c => !(isAlphaMu c))
    let unit := unitOfChars ts
    let dur := String.mk
      (jsSlice nums 0 (delim + 2).toNat ++
       jsSlice nums (delim + 6).toNat ts.length ++ unit)
    { duration := some dur
      errLogs := if err ≠ [] then [String.mk err] else [] }
  else
    { duration := none
      errLogs := [String.mk ts] ++ (if err ≠ [] then [String.mk err] else []) }

/-- Mapping between Node's `process.platform` and Go's `$GOOS`
(main.js lines 16-21), as an association list in declaration order. -/
def PLATFORM_MAPPING : List (String × String) :=
  [("darwin", "darwin"), ("freebsd", "freebsd"), ("linux", "linux"), ("win32", "windows")]

/-- Mapping from Node's `process.arch` to Go's `$GOARCH`
(main.js lines 25-32), as an association list in declaration order. -/
def ARCH_MAPPING : List (String × String) :=
  [("arm", "arm"), ("arm64", "arm64"), ("ia32", "386"), ("x64", "amd64"),
    ("mips64le", "mips64le"), ("ppc64", "ppc64")]

/-- JS object-property lookup `MAPPING[key]`: `some` when the key is present,
`none` (JS `undefined`) otherwise. -/
def jsLookup (m : List (String × String)) (k : String) : Option String :=
  m.lookup k

/-- JS template-literal coercion of a possibly-`undefined` value to a string:
`undefined` interpolates as the text `"undefined"`. -/
def jsStr (o : Option String) : String :=
  o.getD "undefined"

/-- Model of `path.join(a, b)` on the plain relative segments this code
joins. -/
def pathJoin (a b : String) : String :=
  a ++ "/" ++ b

/-- The `${goos}-${goarch}` subdirectory segment computed from the current
host by `runPlatformBin` (main.js lines 138-140) and the worker
(worker.js lines 17-19). -/
def resolveSubDir (hostPlatform hostArch : String) : String :=
  jsStr (jsLookup PLATFORM_MAPPING hostPlatform) ++ "-" ++
    jsStr (jsLookup ARCH_MAPPING hostArch)

/-- The resolved binary path `path.join(path.join(cwd, subDir), cmd)` used by
`runPlatformBin` (main.js lines 141-147) and the worker (worker.js
lines 20-22). -/
def resolveBinPath (hostPlatform hostArch cwd cmd : String) : String :=
  pathJoin (pathJoin cwd (resolveSubDir hostPlatform hostArch)) cmd

/-- The synthesized heap flag `--max-old-space-size=${1024 * spaceMultiplier}`
appended by `runPlatformBin` (main.js line 147) and the worker
(worker.js line 22). -/
def msFlag (mult : Nat) : String :=
  "--max-old-space-size=" ++ toString (1024 * mult)

/-- Everything observable about one `runPlatformBin` call: which processes it
spawned (path and argument list), the lines written to stdout, the
`console.error` lines, and the returned `[stdout, stderr]` pair. -/
structure RunResult where
  spawned : List (String × List String)
  stdoutW : List String
  errLogs : List String
  result : String × String
deriving DecidableEq, Repr

/-- The synchronous runner `runPlatformBin` (main.js lines 137-190).  The host
identifier, the filesystem (`fs.existsSync`) and the spawned process's
captured output are oracle parameters.  If the resolved binary path does not
exist the function returns `["", ""]` without spawning; otherwise it spawns
with the heap flag appended, forwards non-empty stdout prefixed with the log
label, and runs the timing parser on non-empty stderr when a log label was
supplied. -/
def runPlatformBin (hostPlatform hostArch : String) (fsExists : String → Bool)
    (spawnOut : String → List String → String × String)
    (cmd cwd : String) (args : List String) (logName : String)
    (spaceMultiplier : Nat) : RunResult :=
  let binPath := pathJoin cwd (resolveSubDir hostPlatform hostArch)
  if fsExists (pathJoin binPath cmd) = false then
    { spawned := [], stdoutW := [], errLogs := [], result := ("", "") }
  else
    let fullArgs := args ++ [msFlag spaceMultiplier]
    let proc := spawnOut (pathJoin binPath cmd) fullArgs
    let outFwd := if proc.1 ≠ "" then [logName ++ " " ++ proc.1] else []
    let timing :=
      if proc.2 ≠ "" ∧ logName ≠ "" then
        let r := parseTiming proc.2
        ((match r.duration with
          | some d => [logName ++ " ran in " ++ d]
          | none => []), r.errLogs)
      else ([], [])
    { spawned := [(pathJoin binPath cmd, fullArgs)]
      stdoutW := outFwd ++ timing.1
      errLogs := timing.2
      result := (proc.1, proc.2) }

/-- One compiler invocation issued by `buildBinary` through `runBuildCMD`:
the `$GOOS`/`$GOARCH` pair, the binary filename, and the effective
`spaceMultiplier` (which sets `runBuildCMD`'s `maxBuffer` to
`1024 * spaceMultiplier`; the parameter defaults to `1` when omitted,
main.js line 87). -/
structure BuildInvocation where
  platform : String
  arch : String
  binName : String
  spaceMultiplier : Nat
deriving DecidableEq, Repr

/-- The `maxBuffer` option `runBuildCMD` passes to `spawnSync`
(main.js line 101). -/
def runBuildMaxBuffer (spaceMultiplier : Nat) : Nat :=
  1024 * spaceMultiplier

/-- The full-matrix loop of `buildBinary` (main.js lines 66-82): iterate the
OS values of `PLATFORM_MAPPING` and the architecture values of
`ARCH_MAPPING`, `continue` past the darwin/freebsd and windows exclusions,
and call `runBuildCMD` (omitting `spaceMultiplier`, which therefore
defaults to `1`) for every remaining pair. -/
def matrixBuilds (binName : String) : List BuildInvocation :=
  ((PLATFORM_MAPPING.map Prod.snd).map (fun platform =>
    (ARCH_MAPPING.map Prod.snd).filterMap (fun arch =>
      if (platform = "darwin" ∨ platform = "freebsd") ∧
          (arch = "386" ∨ arch = "arm" ∨ arch = "mips64le" ∨ arch = "ppc64") then
        none
      else if platform = "windows" ∧
          (arch = "arm" ∨ arch = "arm64" ∨ arch = "mips64le" ∨ arch = "ppc64") then
        none
      else
        some ⟨platform, arch, binName, 1⟩))).flatten

/-- The build orchestrator `buildBinary` (main.js lines 50-85), modelled as
the list of `runBuildCMD` invocations it performs.  The host's platform and
architecture are looked up first; when the host's `$GOOS` is `windows` the
binary name is suffixed with `.exe` before either branch runs.  In dev mode
one build for the host pair is invoked with the caller's `spaceMultiplier`;
otherwise the full matrix runs. -/
def buildBinary (hostPlatform hostArch binName : String) (dev : Bool)
    (spaceMultiplier : Nat) : List BuildInvocation :=
  let goos := jsStr (jsLookup PLATFORM_MAPPING hostPlatform)
  let goarch := jsStr (jsLookup ARCH_MAPPING hostArch)
  let binName := if goos = "windows" then binName ++ ".exe" else binName
  if dev then
    [⟨goos, goarch, binName, spaceMultiplier⟩]
  else
    matrixBuilds binName

/-- One message posted to the worker thread (main.js lines 204 and 225,
received by worker.js line 33): the command, working directory, argument
list, heap multiplier and the terminate flag. -/
structure WorkerMsg where
  cmd : String
  cwd : String
  args : List String
  spaceMultiplier : Nat
  terminate : Bool
deriving DecidableEq, Repr

/-- Effects the worker's message handler can perform: kill the tracked child
process, spawn a child, or post a message back to the parent. -/
inductive WorkerEffect where
  | kill (pid : Nat)
  | spawnChild (path : String) (args : List String)
  | post (msg : String)
deriving DecidableEq, Repr

/-- The worker's message handler (worker.js lines 10-35), modelled over its
one piece of state, the tracked child-process handle `proc`.  A terminate
message kills the tracked child (if any) and returns; otherwise the binary
path is resolved from the host identifier, a child is spawned with the heap
flag appended, the handle is replaced, and `[${cmd}]` is posted back. -/
def workerOnMessage (hostPlatform hostArch : String) (newPid : Nat)
    (tracked : Option Nat) (m : WorkerMsg) : Option Nat × List WorkerEffect :=
  if m.terminate then
    (tracked, match tracked with | some p => [.kill p] | none => [])
  else
    let target := resolveBinPath hostPlatform hostArch m.cwd m.cmd
    (some newPid,
      [.spawnChild target (m.args ++ [msFlag m.spaceMultiplier]),
       .post ("[" ++ m.cmd ++ "]")])

/-- The module-level state of the supervised runner (main.js lines 192-193):
the current worker handle (`null` initially) and the `initialized` flag
(`inited` here), both mutated only by `runPlatformBinInWorker` and its
message handler. -/
structure RunnerState where
  workerH : Option Nat
  inited : Bool
deriving DecidableEq, Repr

/-- Effects of the supervised runner, in program order: post a message to a
worker, create a worker, terminate a worker, or write a line to stdout. -/
inductive RunnerAction where
  | postMsg (workerId : Nat) (msg : WorkerMsg)
  | createWorker (workerId : Nat)
  | terminateWorker (workerId : Nat)
  | writeOut (line : String)
deriving DecidableEq, Repr

/-- `runPlatformBinInWorker` (main.js lines 201-229), modelled as a step on
the runner state emitting its actions in program order.  If a worker handle
exists, a terminate-flagged message is posted to it and the `initialized`
flag is cleared; then (in every case) a fresh worker is created, handlers are
registered, and the spawn message is posted to the new worker. -/
def runPlatformBinInWorker (newId : Nat) (st : RunnerState)
    (cmd cwd : String) (args : List String) (spaceMultiplier : Nat) :
    RunnerState × List RunnerAction :=
  match st.workerH with
  | some w =>
    (⟨some newId, false⟩,
      [.postMsg w ⟨cmd, cwd, args, spaceMultiplier, true⟩,
       .createWorker newId,
       .postMsg newId ⟨cmd, cwd, args, spaceMultiplier, false⟩])
  | none =>
    (⟨some newId, st.inited⟩,
      [.createWorker newId,
       .postMsg newId ⟨cmd, cwd, args, spaceMultiplier, false⟩])

/-- The `message` handler `runPlatformBinInWorker` registers on the worker
(main.js lines 212-218): forward the message to stdout; if the `initialized`
flag is already set, terminate the current worker; in every case the flag
ends up `true`. -/
def runnerOnMessage (st : RunnerState) (res : String) :
    RunnerState × List RunnerAction :=
  if st.inited then
    (⟨st.workerH, true⟩,
      [.writeOut res] ++
        (match st.workerH with | some w => [.terminateWorker w] | none => []))
  else
    (⟨st.workerH, true⟩, [.writeOut res])

/-- The `$GOOS` values of `PLATFORM_MAPPING`, in declaration order
(`Object.values`, main.js line 66). -/
def osValues : List String :=
  PLATFORM_MAPPING.map Prod.snd

/-- The `$GOARCH` values of `ARCH_MAPPING`, in declaration order
(`Object.values`, main.js line 67). -/
def archValues : List String :=
  ARCH_MAPPING.map Prod.snd

/-- The exclusion rules of the build matrix as the claim enumerates them:
darwin/freebsd exclude 386, arm, mips64le and ppc64; windows excludes arm,
arm64, mips64le and ppc64; linux excludes nothing. -/
def excludedPair (platform arch : String) : Bool :=
  decide ((platform = "darwin" ∨ platform = "freebsd") ∧
      (arch = "386" ∨ arch = "arm" ∨ arch = "mips64le" ∨ arch = "ppc64")) ||
    decide (platform = "windows" ∧
      (arch = "arm" ∨ arch = "arm64" ∨ arch = "mips64le" ∨ arch = "ppc64"))

/-- The twelve (OS, architecture) pairs the full-matrix loop builds, in loop
order. -/
def fullMatrixPairs : List (String × String) :=
  [("darwin", "arm64"), ("darwin", "amd64"),
   ("freebsd", "arm64"), ("freebsd", "amd64"),
   ("linux", "arm"), ("linux", "arm64"), ("linux", "386"), ("linux", "amd64"),
   ("linux", "mips64le"), ("linux", "ppc64"),
   ("windows", "386"), ("windows", "amd64")]

/-- Filesystem oracle on which every path exists. -/
def fsAlwaysTrue : String → Bool :=
  fun _ => true

/-- Filesystem oracle on which no path exists. -/
def fsAlwaysFalse : String → Bool :=
  fun _ => false

/-- Spawn oracle whose child writes nothing to either stream. -/
def spawnSilent : String → List String → String × String :=
  fun _ _ => ("", "")

/-- Modelled from the spec's words, for comparison with the code's splice:
"a display string that takes the leading digits up to two places past the
decimal point concatenated with the digits from four characters after the
decimal point to the end, immediately followed by the unit".  The leading
numeric run is cut at index `delim + 2` and resumed at index `delim + 4`. -/
def specDescribedSplice (ts : List Char) : String :=
  let delim := jsIndexOf ts '.'
  let nums := ts.takeWhile (fun c => !(isAlphaMu c))
  String.mk (jsSlice nums 0 (delim + 2).toNat ++
    nums.drop (delim + 4).toNat ++ unitOfChars ts)

/-- The full-matrix loop evaluates to these twelve invocations, in order, for
any binary name. -/
theorem matrixBuilds_eq (binName : String) :
    matrixBuilds binName =
      [⟨"darwin", "arm64", binName, 1⟩, ⟨"darwin", "amd64", binName, 1⟩,
       ⟨"freebsd", "arm64", binName, 1⟩, ⟨"freebsd", "amd64", binName, 1⟩,
       ⟨"linux", "arm", binName, 1⟩, ⟨"linux", "arm64", binName, 1⟩,
       ⟨"linux", "386", binName, 1⟩, ⟨"linux", "amd64", binName, 1⟩,
       ⟨"linux", "mips64le", binName, 1⟩, ⟨"linux", "ppc64", binName, 1⟩,
       ⟨"windows", "386", binName, 1⟩, ⟨"windows", "amd64", binName, 1⟩] := rfl

/-- Projecting the matrix invocations to (OS, architecture) pairs yields
`fullMatrixPairs`, independently of the binary name. -/
theorem matrixBuilds_pairs (binName : String) :
    (matrixBuilds binName).map (fun i => (i.platform, i.arch)) = fullMatrixPairs := rfl

/-- Claim C1 (refuted; the code is the bug): the `.exe` suffix does NOT follow
the target's OS family — `buildBinary` appends `.exe` once, before the matrix
loop, based on the HOST platform.  On a linux host the full matrix builds the
windows-amd64 target with the bare name `agent` (every invocation uses
`agent`), while on a win32 host every target — including linux-amd64 — is
built as `agent.exe`. -/
theorem C1_exe_suffix_follows_host :
    (⟨"windows", "amd64", "agent", 1⟩ : BuildInvocation) ∈
        buildBinary "linux" "x64" "agent" false 4096 ∧
    (buildBinary "linux" "x64" "agent" false 4096).all
        (fun inv => inv.binName == "agent") = true ∧
    (⟨"linux", "amd64", "agent.exe", 1⟩ : BuildInvocation) ∈
        buildBinary "win32" "x64" "agent" false 4096 ∧
    (buildBinary "win32" "x64" "agent" false 4096).all
        (fun inv => inv.binName == "agent.exe") = true := by
  decide

/-- Claim C2: in dev mode `buildBinary` invokes exactly one build, for the
host's mapped (OS, architecture) pair; in full mode the invoked (OS,
architecture) pairs are exactly `fullMatrixPairs`, and over the OS values ×
architecture values cross product a pair is built iff it is not excluded
(darwin/freebsd exclude 386, arm, mips64le, ppc64; windows excludes arm,
arm64, mips64le, ppc64; linux excludes nothing). -/
theorem C2_build_matrix (hostPlatform hostArch binName : String) (mult : Nat) :
    (∀ goos goarch, jsLookup PLATFORM_MAPPING hostPlatform = some goos →
      jsLookup ARCH_MAPPING hostArch = some goarch →
      buildBinary hostPlatform hostArch binName true mult =
        [⟨goos, goarch, if goos = "windows" then binName ++ ".exe" else binName,
          mult⟩]) ∧
    (buildBinary hostPlatform hostArch binName false mult).map
        (fun i => (i.platform, i.arch)) = fullMatrixPairs ∧
    (∀ p ∈ osValues, ∀ a ∈ archValues,
      ((p, a) ∈ fullMatrixPairs ↔ excludedPair p a = false)) := by
  refine ⟨?_, ?_, ?_⟩
  · intro goos goarch hg ha
    simp [buildBinary, jsStr, hg, ha]
  · simp only [buildBinary, Bool.false_eq_true, if_false]
    exact matrixBuilds_pairs _
  · intro p hp a ha
    fin_cases hp <;> fin_cases ha <;> decide

/-- Witness for C2 at the concrete host (linux, x64) with binary name `agent`
and multiplier 7, plus one pair of the matrix characterization. -/
theorem C2_build_matrix_witness :
    buildBinary "linux" "x64" "agent" true 7 =
      [⟨"linux", "amd64", "agent", 7⟩] ∧
    (("windows", "amd64") ∈ fullMatrixPairs ↔
      excludedPair "windows" "amd64" = false) := by
  constructor
  · have h := (C2_build_matrix "linux" "x64" "agent" 7).1 "linux" "amd64" rfl rfl
    simpa using h
  · exact (C2_build_matrix "linux" "x64" "agent" 7).2.2 "windows" (by decide)
      "amd64" (by decide)

/-- Claim C10: the `spaceMultiplier` argument of `buildBinary` reaches
`runBuildCMD` only on the dev path.  Every full-matrix invocation runs with
the omitted-parameter default of 1, i.e. a `maxBuffer` of 1024 bytes for the
compiler call, regardless of the caller's multiplier; the dev invocation uses
the caller's multiplier. -/
theorem C10_matrix_multiplier (hostPlatform hostArch binName : String)
    (mult : Nat) :
    (∀ inv ∈ buildBinary hostPlatform hostArch binName false mult,
      inv.spaceMultiplier = 1 ∧ runBuildMaxBuffer inv.spaceMultiplier = 1024) ∧
    (∀ inv ∈ buildBinary hostPlatform hostArch binName true mult,
      inv.spaceMultiplier = mult) := by
  constructor
  · intro inv h
    simp only [buildBinary, Bool.false_eq_true, if_false] at h
    rw [matrixBuilds_eq] at h
    simp only [List.mem_cons, List.not_mem_nil, or_false] at h
    rcases h with rfl | rfl | rfl | rfl | rfl | rfl | rfl | rfl | rfl | rfl | rfl | rfl <;>
      exact ⟨rfl, rfl⟩
  · intro inv h
    simp only [buildBinary, if_true] at h
    simp only [List.mem_singleton] at h
    subst h
    rfl

/-- Witness for C10: a matrix invocation on host (linux, x64) with caller
multiplier 9 still uses multiplier 1 (buffer 1024), while the dev invocation
uses 9. -/
theorem C10_matrix_multiplier_witness :
    ((⟨"darwin", "arm64", "agent", 1⟩ : BuildInvocation).spaceMultiplier = 1 ∧
      runBuildMaxBuffer
        (⟨"darwin", "arm64", "agent", 1⟩ : BuildInvocation).spaceMultiplier = 1024) ∧
    (⟨"linux", "amd64", "agent", 9⟩ : BuildInvocation).spaceMultiplier = 9 := by
  refine ⟨?_, ?_⟩
  · exact (C10_matrix_multiplier "linux" "x64" "agent" 9).1
      ⟨"darwin", "arm64", "agent", 1⟩ (by decide)
  · exact (C10_matrix_multiplier "linux" "x64" "agent" 9).2
      ⟨"linux", "amd64", "agent", 9⟩ (by decide)

/-- Claim C3 counterexample: the code's splice resumes at `delim + 6`
(main.js line 177), not at "four characters after the decimal point"
(`delim + 4`) as the spec's sentence reads.  On `"123.456789ms+~+~+boom"`
the parser emits `"123.49ms"` while the spec-described splice yields
`"123.4789ms"`. -/
theorem C3_duration_splice_cex :
    (parseTiming "123.456789ms+~+~+boom").duration = some "123.49ms" ∧
    specDescribedSplice "123.456789ms".data = "123.4789ms" ∧
    "123.49ms" ≠ "123.4789ms" := by
  decide

/-- Claim C3 as amended: when stderr splits on `+~+~+` into exactly two parts
with a non-empty first part, the emitted duration is the leading numeric run
truncated at two places past the decimal point's position, concatenated with
the numeric run's characters from SIX characters after the decimal point's
position to the end, followed by the detected unit; for
`"123.456ms+~+~+boom"` this yields `"123.4ms"` and the diagnostic `"boom"` is
logged as an error. -/
theorem C3_duration_splice (se : String) (ts err : List Char)
    (hsplit : jsSplit se.data = [ts, err]) (hts : ts ≠ []) :
    ((parseTiming se).duration =
      some (String.mk
        ((ts.takeWhile (fun c => !(isAlphaMu c))).take
            (jsIndexOf ts '.' + 2).toNat ++
         (ts.takeWhile (fun c => !(isAlphaMu c))).drop
            (jsIndexOf ts '.' + 6).toNat ++
         unitOfChars ts)) ∧
     (err ≠ [] → String.mk err ∈ (parseTiming se).errLogs)) ∧
    (parseTiming "123.456ms+~+~+boom").duration = some "123.4ms" ∧
    "boom" ∈ (parseTiming "123.456ms+~+~+boom").errLogs := by
  refine ⟨⟨?_, ?_⟩, by decide, by decide⟩
  · have hlen : (ts.takeWhile (fun c => !(isAlphaMu c))).length ≤ ts.length :=
      (List.takeWhile_sublist _).length_le
    simp only [parseTiming, hsplit, List.headD_cons, List.drop_succ_cons,
      List.drop_zero, List.length_cons, List.length_nil]
    rw [if_pos ⟨hts, trivial⟩]
    simp only [jsSlice, List.drop_zero, List.take_of_length_le hlen]
  · intro he
    simp only [parseTiming, hsplit, List.headD_cons, List.drop_succ_cons,
      List.drop_zero, List.length_cons, List.length_nil]
    rw [if_pos ⟨hts, trivial⟩]
    simp [he]

/-- Witness for the amended C3 at the payload `"123.456ms+~+~+boom"`. -/
theorem C3_duration_splice_witness :
    (parseTiming "123.456ms+~+~+boom").duration = some "123.4ms" ∧
    "boom" ∈ (parseTiming "123.456ms+~+~+boom").errLogs := by
  have h := C3_duration_splice "123.456ms+~+~+boom" "123.456ms".data "boom".data
    (by decide) (by decide)
  exact h.2

/-- Claim C4: the detected unit is the concatenation of every alphabetic
character (micro-sign included) of the timestamp part, and the `"ms"` default
applies exactly when the timestamp part has no alphabetic character; on the
payload `"42µs+~+~+"` the duration carries the unit `µs`, not the default. -/
theorem C4_unit_detection :
    (∀ ts : List Char,
      (ts.filter isAlphaMu = [] → unitOfChars ts = ['m', 's']) ∧
      (ts.filter isAlphaMu ≠ [] → unitOfChars ts = ts.filter isAlphaMu)) ∧
    unitOfChars "42µs".data = "µs".data ∧
    (parseTiming "42µs+~+~+").duration = some "4µs" := by
  refine ⟨fun ts => ⟨fun h => ?_, fun h => ?_⟩, by decide, by decide⟩
  · simp [unitOfChars, h]
  · simp [unitOfChars, h]

/-- Witness for C4: a purely numeric timestamp part gets the `"ms"` default,
and an alphabetic one gets its own characters. -/
theorem C4_unit_detection_witness :
    unitOfChars ['4', '2'] = ['m', 's'] ∧
    unitOfChars ['4', '2', 'µ', 's'] = ['µ', 's'] := by
  exact ⟨(C4_unit_detection.1 ['4', '2']).1 (by decide),
    (C4_unit_detection.1 ['4', '2', 'µ', 's']).2 (by decide)⟩

/-- Claim C5: when the payload does not split on `+~+~+` into exactly two
parts, no duration is produced and the whole first segment is logged as an
error; and whenever the second segment is non-empty it is logged as an error
(in every branch).  The parser is a total function, so no payload makes it
throw. -/
theorem C5_malformed_payload (se : String) :
    ((jsSplit se.data).length ≠ 2 →
      (parseTiming se).duration = none ∧
      String.mk ((jsSplit se.data).headD []) ∈ (parseTiming se).errLogs) ∧
    (((jsSplit se.data).drop 1).headD [] ≠ [] →
      String.mk (((jsSplit se.data).drop 1).headD []) ∈
        (parseTiming se).errLogs) := by
  constructor
  · intro h
    have hC : ¬((jsSplit se.data).headD [] ≠ [] ∧ (jsSplit se.data).length = 2) :=
      fun hc => h hc.2
    simp only [parseTiming]
    rw [if_neg hC]
    refine ⟨rfl, ?_⟩
    simp
  · intro h
    simp only [parseTiming]
    split
    · simp [h]
    · simp [h]

/-- Witness for C5: a delimiter-free payload produces no duration and is
logged whole; a three-part payload logs its second segment. -/
theorem C5_malformed_payload_witness :
    ((parseTiming "abc").duration = none ∧
      "abc" ∈ (parseTiming "abc").errLogs) ∧
    "y" ∈ (parseTiming "x+~+~+y+~+~+z").errLogs := by
  exact ⟨(C5_malformed_payload "abc").1 (by decide),
    (C5_malformed_payload "x+~+~+y+~+~+z").2 (by decide)⟩

/-- Claim C6: whenever the resolved binary path does not exist,
`runPlatformBin` returns the pair of two empty strings, spawns nothing, and
writes nothing. -/
theorem C6_missing_binary (hostPlatform hostArch cmd cwd logName : String)
    (args : List String) (mult : Nat) (fsExists : String → Bool)
    (spawnOut : String → List String → String × String)
    (h : fsExists (resolveBinPath hostPlatform hostArch cwd cmd) = false) :
    runPlatformBin hostPlatform hostArch fsExists spawnOut cmd cwd args
        logName mult =
      { spawned := [], stdoutW := [], errLogs := [], result := ("", "") } := by
  unfold resolveBinPath at h
  simp [runPlatformBin, h]

/-- Witness for C6 on a filesystem where no path exists. -/
theorem C6_missing_binary_witness :
    runPlatformBin "linux" "x64" fsAlwaysFalse spawnSilent "tool" "base"
        ["x"] "log" 2 =
      { spawned := [], stdoutW := [], errLogs := [], result := ("", "") } :=
  C6_missing_binary "linux" "x64" "tool" "base" "log" ["x"] 2 fsAlwaysFalse
    spawnSilent rfl

/-- Claim C7 (refuted; the code is the bug): a host platform or architecture
absent from the mappings does not fail — the lookup yields JS `undefined`,
the template literal coerces it to the text `undefined`, and every resolver
silently proceeds with an `undefined-undefined` target segment:
`buildBinary` builds it, `runPlatformBin` spawns under it, and the worker
spawns under it. -/
theorem C7_unsupported_host_silent :
    resolveSubDir "aix" "mips" = "undefined-undefined" ∧
    buildBinary "aix" "mips" "agent" true 4096 =
      [⟨"undefined", "undefined", "agent", 4096⟩] ∧
    (runPlatformBin "aix" "mips" fsAlwaysTrue spawnSilent "tool" "base" []
        "log" 1).spawned =
      [("base/undefined-undefined/tool", ["--max-old-space-size=1024"])] ∧
    (workerOnMessage "aix" "mips" 1 none ⟨"tool", "base", [], 1, false⟩).2 =
      [.spawnChild "base/undefined-undefined/tool" ["--max-old-space-size=1024"],
       .post "[tool]"] := by
  decide

/-- Claim C8: single-flight.  A call on a state holding a live worker first
posts the terminate-flagged message to that worker and clears the
`initialized` flag, and only then creates and messages the new worker (the
action list is in program order); the worker kills its tracked child on a
terminate message; and under the registered handler the first message after
creation sets the flag without terminating, while any message arriving with
the flag already set terminates the current worker. -/
theorem C8_single_flight (newId w : Nat) (b : Bool) (cmd cwd : String)
    (args : List String) (mult : Nat) :
    runPlatformBinInWorker newId ⟨some w, b⟩ cmd cwd args mult =
      (⟨some newId, false⟩,
        [.postMsg w ⟨cmd, cwd, args, mult, true⟩,
         .createWorker newId,
         .postMsg newId ⟨cmd, cwd, args, mult, false⟩]) ∧
    (∀ hostPlatform hostArch newPid p,
      workerOnMessage hostPlatform hostArch newPid (some p)
          ⟨cmd, cwd, args, mult, true⟩ = (some p, [.kill p])) ∧
    (∀ ow res, runnerOnMessage ⟨ow, false⟩ res =
      (⟨ow, true⟩, [.writeOut res])) ∧
    (∀ w' res, runnerOnMessage ⟨some w', true⟩ res =
      (⟨some w', true⟩, [.writeOut res, .terminateWorker w'])) :=
  ⟨rfl, fun _ _ _ _ => rfl, fun _ _ => rfl, fun _ _ => rfl⟩

/-- Claim C9: both spawn sites append, as the final argument, exactly the one
synthesized flag `--max-old-space-size=N` with `N` the heap multiplier times
1024: the synchronous runner's spawn argument list is the caller's list plus
that flag, and so is the worker's. -/
theorem C9_heap_flag :
    (∀ hostPlatform hostArch fsExists spawnOut cmd cwd args logName mult,
      fsExists (resolveBinPath hostPlatform hostArch cwd cmd) = true →
      (runPlatformBin hostPlatform hostArch fsExists spawnOut cmd cwd args
          logName mult).spawned =
        [(resolveBinPath hostPlatform hostArch cwd cmd,
          args ++ [msFlag mult])]) ∧
    (∀ hostPlatform hostArch newPid tracked (m : WorkerMsg),
      m.terminate = false →
      (workerOnMessage hostPlatform hostArch newPid tracked m).2 =
        [.spawnChild (resolveBinPath hostPlatform hostArch m.cwd m.cmd)
            (m.args ++ [msFlag m.spaceMultiplier]),
         .post ("[" ++ m.cmd ++ "]")]) ∧
    (∀ mult, msFlag mult = "--max-old-space-size=" ++ toString (mult * 1024)) := by
  refine ⟨?_, ?_, ?_⟩
  · intro hostPlatform hostArch fsExists spawnOut cmd cwd args logName mult h
    unfold resolveBinPath at h
    simp [runPlatformBin, h, resolveBinPath]
  · intro hostPlatform hostArch newPid tracked m h
    simp [workerOnMessage, h]
  · intro mult
    simp [msFlag, Nat.mul_comm]

/-- Witness for C9 on host (linux, x64) with multiplier 2: both spawn sites
receive `["a", "--max-old-space-size=2048"]`. -/
theorem C9_heap_flag_witness :
    (runPlatformBin "linux" "x64" fsAlwaysTrue spawnSilent "tool" "base"
        ["a"] "log" 2).spawned =
      [("base/linux-amd64/tool", ["a", "--max-old-space-size=2048"])] ∧
    (workerOnMessage "linux" "x64" 5 none ⟨"tool", "base", ["a"], 2, false⟩).2 =
      [.spawnChild "base/linux-amd64/tool" ["a", "--max-old-space-size=2048"],
       .post "[tool]"] := by
  constructor
  · exact (C9_heap_flag.1 "linux" "x64" fsAlwaysTrue spawnSilent "tool" "base"
      ["a"] "log" 2 rfl).trans (by decide)
  · exact (C9_heap_flag.2.1 "linux" "x64" 5 none
      ⟨"tool", "base", ["a"], 2, false⟩ rfl).trans (by decide)

end GoBinUtils
